import Mathlib

/-!
Shallow embedding of `src/main.rs` of the `rust_ownership` repository:
a pedagogical script that runs a fixed list of ownership/borrowing/slicing
demonstration scenarios, each printing a few lines to stdout.

Modelling choices:
* Rust `String` / `&str` values are `List Char` (all text here is ASCII, so
  byte indices coincide with character indices).
* `println!` output is modelled by threading an explicit stdout buffer
  (`Buf`, a list of printed lines) through every scenario.
* Rust range slicing `&a[lo..hi]` panics when the range is out of bounds;
  a panic aborts the whole run, so each scenario is a function
  `Buf → Option Buf`, with `none` for an aborted run, and `main` sequences
  the scenarios in the `Option` monad.
* Ownership transfer (`let s2 = s1;`, passing a `String` by value) is
  modelled by a typestate `Own`: a binding is either `valid v` or `moved`;
  a move invalidates the source binding, a `Copy`-type assignment does not.
-/

namespace RustOwnership

/-- Rust `String` / `&str` values, as lists of characters. -/
abbrev Str := List Char

/-- A string literal, as a character list. -/
def str (s : String) : Str := s.toList

/-- Formatting of an `i32` value, as in `println!("{x}")`. -/
def showInt (n : Int) : Str := (toString n).toList

/-- Formatting of a `usize` value, as in `println!("{len}")`. -/
def showNat (n : Nat) : Str := (toString n).toList

/-- Rust range slicing `&a[lo..hi]`: yields the elements at indices
`lo, ..., hi-1` when `lo ≤ hi ≤ a.len()`, and panics (modelled as `none`)
otherwise. -/
def sliceList {α : Type} (a : List α) (lo hi : Nat) : Option (List α) :=
  if lo ≤ hi ∧ hi ≤ a.length then some ((a.drop lo).take (hi - lo)) else none

/-- Rust string slicing `&s[lo..hi]`. -/
def sliceStr (s : Str) (lo hi : Nat) : Option Str := sliceList s lo hi

/-- The stdout buffer: the lines printed so far, in order. -/
abbrev Buf := List Str

/-- Ownership typestate of a binding: it either validly owns a value or has
been moved from (and may no longer be used). -/
inductive Own (α : Type) where
  | valid (v : α)
  | moved
deriving DecidableEq

/-- Using (reading) a binding: succeeds only while the binding is valid. -/
def Own.read {α : Type} : Own α → Option α
  | .valid v => some v
  | .moved => none

/-- Move semantics for non-`Copy` types (`String`): assignment or passing by
value transfers ownership, invalidating the source binding.  Returns
(state of the source binding afterwards, state of the destination binding). -/
def moveBinding {α : Type} : Own α → Own α × Own α
  | .valid v => (.moved, .valid v)
  | .moved => (.moved, .moved)

/-- Copy semantics for `Copy` types (`i32`): assignment copies the value and
leaves the source binding valid. -/
def copyBinding {α : Type} : Own α → Own α × Own α
  | .valid v => (.valid v, .valid v)
  | .moved => (.moved, .moved)

/-! ## The scenarios, in source order -/

/-- `fn mutable_string()` (main.rs lines 6–13). -/
def mutable_string (buf : Buf) : Option Buf :=
  let buf := buf ++ [str "Mutable string..."]
  let s := str "hello"
  let s := s ++ str ", world~"
  some (buf ++ [s])

def mutable_string_lines : List Str :=
  [str "Mutable string...", str "hello, world~"]

/-- Binding `x` of `multiple_variables_simple` (`let x = 5;`). -/
def mvs_x : Int := 5

/-- Binding `y` of `multiple_variables_simple` (`let y = x;`, a copy). -/
def mvs_y : Int := mvs_x

/-- `fn multiple_variables_simple()` (main.rs lines 15–22). -/
def multiple_variables_simple (buf : Buf) : Option Buf :=
  let buf := buf ++ [str "Multiple variables simple..."]
  some (buf ++ [str "x = " ++ showInt mvs_x ++ str ", y = " ++ showInt mvs_y])

def multiple_variables_simple_lines : List Str :=
  [str "Multiple variables simple...", str "x = 5, y = 5"]

/-- Binding `s1` of `multiple_variables_complex` before the move. -/
def mvc_s1_init : Own Str := .valid (str "hello")

/-- The move `let s2 = s1;` of `multiple_variables_complex`. -/
def mvc_move : Own Str × Own Str := moveBinding mvc_s1_init

/-- Binding `s1` after the move: invalidated. -/
def mvc_s1 : Own Str := mvc_move.1

/-- Binding `s2` after the move: the new owner. -/
def mvc_s2 : Own Str := mvc_move.2

/-- `fn multiple_variables_complex()` (main.rs lines 24–40). -/
def multiple_variables_complex (buf : Buf) : Option Buf := do
  let buf := buf ++ [str "Multiple variables complex..."]
  let s2 ← mvc_s2.read
  some (buf ++ [s2 ++ str ", world"])

def multiple_variables_complex_lines : List Str :=
  [str "Multiple variables complex...", str "hello, world"]

/-- `String::clone`: copies the heap data, producing an equal, independently
owned value; the original is only borrowed, not moved. -/
def cloneVal (s : Str) : Str := s

/-- Binding `s1` of `using_clone`; `clone` borrows it, so it stays valid. -/
def uc_s1 : Own Str := .valid (str "hello")

/-- Binding `s2` of `using_clone`: `let s2 = s1.clone();`. -/
def uc_s2 : Own Str :=
  match uc_s1.read with
  | some v => .valid (cloneVal v)
  | none => .moved

/-- `fn using_clone()` (main.rs lines 42–52). -/
def using_clone (buf : Buf) : Option Buf := do
  let buf := buf ++ [str "Clone complex data..."]
  let v1 ← uc_s1.read
  let v2 ← uc_s2.read
  some (buf ++ [str "s1 = " ++ v1 ++ str ", s2 = " ++ v2])

def using_clone_lines : List Str :=
  [str "Clone complex data...", str "s1 = hello, s2 = hello"]

/-- `fn print_string(value: String)` (main.rs lines 54–56): the line it
prints. -/
def print_string (value : Str) : Str := str "This is a string:  " ++ value

/-- `fn print_integer(value: i32)` (main.rs lines 58–60): the line it
prints. -/
def print_integer (value : Int) : Str :=
  str "This is an integer: " ++ showInt value

/-- Binding `s` of `passing_function_params` before the call. -/
def pfp_s_init : Own Str := .valid (str "hello")

/-- The move of `s` into `print_string`'s parameter `value`. -/
def pfp_move : Own Str × Own Str := moveBinding pfp_s_init

/-- Binding `s` after the call: invalidated. -/
def pfp_s : Own Str := pfp_move.1

/-- Parameter `value: String` inside `print_string`. -/
def pfp_param : Own Str := pfp_move.2

/-- Binding `x` of `passing_function_params` before the call. -/
def pfp_x_init : Own Int := .valid 5

/-- The copy of `x` into `print_integer`'s parameter (a `Copy` type). -/
def pfp_copy : Own Int × Own Int := copyBinding pfp_x_init

/-- Binding `x` after the call: still valid. -/
def pfp_x : Own Int := pfp_copy.1

/-- Parameter `value: i32` inside `print_integer`. -/
def pfp_xparam : Own Int := pfp_copy.2

/-- `fn passing_function_params()` (main.rs lines 62–81). -/
def passing_function_params (buf : Buf) : Option Buf := do
  let buf := buf ++ [str "Passing function params..."]
  let v ← pfp_param.read
  let buf := buf ++ [print_string v]
  let xv ← pfp_xparam.read
  let buf := buf ++ [print_integer xv]
  let x ← pfp_x.read
  some (buf ++ [str "Check validity of x: " ++ showInt x])

def passing_function_params_lines : List Str :=
  [str "Passing function params...",
   str "This is a string:  hello",
   str "This is an integer: 5",
   str "Check validity of x: 5"]

/-- `fn takes_and_gives_back(value: String) -> String` (main.rs lines
83–85). -/
def takes_and_gives_back (value : Str) : Str := value

/-- Binding `s` of `function_with_return` before the call. -/
def fwr_s_init : Own Str := .valid (str "hello")

/-- The move of `s` into `takes_and_gives_back`'s parameter. -/
def fwr_move : Own Str × Own Str := moveBinding fwr_s_init

/-- Binding `s` after the call: invalidated. -/
def fwr_s : Own Str := fwr_move.1

/-- Binding `s2`: owns the value returned by `takes_and_gives_back`. -/
def fwr_s2 : Own Str :=
  match fwr_move.2.read with
  | some v => .valid (takes_and_gives_back v)
  | none => .moved

/-- `fn function_with_return()` (main.rs lines 87–96). -/
def function_with_return (buf : Buf) : Option Buf := do
  let buf := buf ++ [str "Function with return..."]
  let v ← fwr_s2.read
  some (buf ++ [str "Getting back s and store in s2: " ++ v])

def function_with_return_lines : List Str :=
  [str "Function with return...", str "Getting back s and store in s2: hello"]

/-- `fn calculate_length(s: &String) -> usize` (main.rs lines 98–100). -/
def calculate_length (s : Str) : Nat := s.length

/-- `fn using_reference()` (main.rs lines 102–114). -/
def using_reference (buf : Buf) : Option Buf :=
  let buf := buf ++ [str "Using reference..."]
  let s1 := str "hello"
  let len := calculate_length s1
  some (buf ++ [str "The length of " ++ str "'" ++ s1 ++ str "'" ++
    str " is " ++ showNat len ++ str "."])

def using_reference_lines : List Str :=
  [str "Using reference...",
   str "The length of " ++ str "'" ++ str "hello" ++ str "'" ++
     str " is 5."]

/-- `fn change(s: &mut String)` (main.rs lines 116–118): the mutation it
performs on the borrowed string. -/
def change (s : Str) : Str := s ++ str ", world"

/-- `fn using_mutable_reference()` (main.rs lines 120–128). -/
def using_mutable_reference (buf : Buf) : Option Buf :=
  let buf := buf ++ [str "Using mutable referance..."]
  let s := str "hello"
  let s := change s
  some (buf ++ [str "The final result is: " ++ s])

def using_mutable_reference_lines : List Str :=
  [str "Using mutable referance...", str "The final result is: hello, world"]

/-- `fn rules_of_mutable_references()` (main.rs lines 130–162). -/
def rules_of_mutable_references (buf : Buf) : Option Buf :=
  let buf := buf ++ [str "Rules of mutable references..."]
  let s := str "hello"
  let r1 := s
  let buf := buf ++ [str "r1: " ++ r1]
  let r2 := s
  let buf := buf ++ [str "r2: " ++ r2]
  let r1 := s
  let r2 := s
  some (buf ++ [str "r1: " ++ r1 ++ str ", r2: " ++ r2])

def rules_of_mutable_references_lines : List Str :=
  [str "Rules of mutable references...",
   str "r1: hello", str "r2: hello", str "r1: hello, r2: hello"]

/-- `fn no_dangle() -> String` (main.rs lines 173–176). -/
def no_dangle : Str := str "hello"

/-- `fn about_dangle()` (main.rs lines 178–183). -/
def about_dangle (buf : Buf) : Option Buf :=
  let buf := buf ++ [str "About dangle..."]
  let result := no_dangle
  some (buf ++ [str "No dangle: " ++ result])

def about_dangle_lines : List Str :=
  [str "About dangle...", str "No dangle: hello"]

/-- `fn using_slice()` (main.rs lines 185–201). -/
def using_slice (buf : Buf) : Option Buf := do
  let buf := buf ++ [str "Using slice..."]
  let s := str "hello world"
  let len := s.length
  let slice1 ← sliceStr s 0 5
  let slice2 ← sliceStr s 0 5
  let slice3 ← sliceStr s 6 len
  let slice4 ← sliceStr s 6 s.length
  some (buf ++ [str "Slice 1: " ++ slice1, str "Slice 2: " ++ slice2,
    str "Slice 3: " ++ slice3, str "Slice 4: " ++ slice4])

def using_slice_lines : List Str :=
  [str "Using slice...",
   str "Slice 1: hello", str "Slice 2: hello",
   str "Slice 3: world", str "Slice 4: world"]

/-- The loop body of `fn first_word(s: &str) -> &str` (main.rs lines
203–216): scans `bytes` with running index `i`; on the first space returns
`&s[0..i]`, and falls through to `&s[..]`. -/
def firstWordLoop (s : Str) : Str → Nat → Str
  | [], _ => s
  | item :: rest, i =>
      if item = ' ' then s.take i else firstWordLoop s rest (i + 1)

/-- `fn first_word(s: &str) -> &str` (main.rs lines 203–216). -/
def first_word (s : Str) : Str := firstWordLoop s s 0

/-- `fn using_slice_function()` (main.rs lines 218–229). -/
def using_slice_function (buf : Buf) : Option Buf :=
  let buf := buf ++ [str "Using slice function..."]
  let s := str "hello world"
  let first := first_word s
  some (buf ++ [str "First word is " ++ first])

def using_slice_function_lines : List Str :=
  [str "Using slice function...", str "First word is hello"]

/-- `fn general_string_slice()` (main.rs lines 231–247). -/
def general_string_slice (buf : Buf) : Option Buf := do
  let buf := buf ++ [str "General string slice..."]
  let my_string := str "hello world"
  let t1 ← sliceStr my_string 0 6
  let w1 := first_word t1
  let t2 ← sliceStr my_string 0 my_string.length
  let w2 := first_word t2
  let w3 := first_word my_string
  let my_string_literal := str "hello world"
  let tl1 ← sliceStr my_string_literal 0 6
  let wl1 := first_word tl1
  let tl2 ← sliceStr my_string_literal 0 my_string_literal.length
  let wl2 := first_word tl2
  let wl3 := first_word my_string_literal
  some (buf ++ [str "Output: " ++ w1 ++ str " " ++ w2 ++ str " " ++ w3 ++
    str " " ++ wl1 ++ str " " ++ wl2 ++ str " " ++ wl3])

def general_string_slice_lines : List Str :=
  [str "General string slice...",
   str "Output: hello hello hello hello hello hello"]

/-- `fn other_slices()` (main.rs lines 249–259): slices `[1,2,3,4,5]` over
`1..3`, asserts the result equals `[2,3]` (an `assert_eq!` failure would be
a panic, i.e. `none`), then prints each element. -/
def other_slices (buf : Buf) : Option Buf := do
  let buf := buf ++ [str "Other slices..."]
  let a : List Int := [1, 2, 3, 4, 5]
  let slice ← sliceList a 1 3
  if slice = [2, 3] then
    some (buf ++ slice.map showInt)
  else
    none

def other_slices_lines : List Str :=
  [str "Other slices...", str "2", str "3"]

/-- `fn main()` (main.rs lines 261–276): runs the scenarios in order.  This
is the `run_all()` of the specification. -/
def main (buf : Buf) : Option Buf := do
  let buf ← mutable_string buf
  let buf ← multiple_variables_simple buf
  let buf ← multiple_variables_complex buf
  let buf ← using_clone buf
  let buf ← passing_function_params buf
  let buf ← function_with_return buf
  let buf ← using_reference buf
  let buf ← using_mutable_reference buf
  let buf ← rules_of_mutable_references buf
  let buf ← about_dangle buf
  let buf ← using_slice buf
  let buf ← using_slice_function buf
  let buf ← general_string_slice buf
  let buf ← other_slices buf
  pure buf

/-- The whole program's stdout, one scenario after the other. -/
def main_lines : List Str :=
  mutable_string_lines ++ multiple_variables_simple_lines ++
  multiple_variables_complex_lines ++ using_clone_lines ++
  passing_function_params_lines ++ function_with_return_lines ++
  using_reference_lines ++ using_mutable_reference_lines ++
  rules_of_mutable_references_lines ++ about_dangle_lines ++
  using_slice_lines ++ using_slice_function_lines ++
  general_string_slice_lines ++ other_slices_lines

/-! ## Specification-side description of `first_word`

The spec describes `first_word` as returning "the prefix of `s` that ends
just before the first space character of `s`, and the whole string when `s`
contains no space".  The two definitions below state exactly that; they are
compared with the source-derived `first_word` in claim C9. -/

/-- Index of the first space character of a string, if any. -/
def firstSpaceIdx : Str → Option Nat
  | [] => none
  | c :: rest => if c = ' ' then some 0 else (firstSpaceIdx rest).map (· + 1)

/-- Modelled from the spec sentence: the prefix of `s` ending just before
the first space, or all of `s` when there is no space. -/
def firstWordSpec (s : Str) : Str :=
  match firstSpaceIdx s with
  | some i => s.take i
  | none => s

/-! ## Helper lemmas: each scenario appends a fixed list of lines to the
stdout buffer, independently of what was printed before it. -/

theorem firstWordLoop_eq (bytes : Str) : ∀ (s : Str) (i : Nat),
    firstWordLoop s bytes i =
      match firstSpaceIdx bytes with
      | some j => s.take (i + j)
      | none => s := by
  induction bytes with
  | nil => intro s i; rfl
  | cons c rest ih =>
    intro s i
    by_cases hc : c = ' '
    · simp [firstWordLoop, firstSpaceIdx, hc]
    · simp only [firstWordLoop, firstSpaceIdx, if_neg hc]
      rw [ih]
      cases h : firstSpaceIdx rest with
      | none => simp [h]
      | some j =>
        have hj : i + 1 + j = i + (j + 1) := by omega
        simp [h, hj]

theorem first_word_eq_spec (s : Str) : first_word s = firstWordSpec s := by
  unfold first_word firstWordSpec
  rw [firstWordLoop_eq]
  cases h : firstSpaceIdx s <;> simp [h]

theorem mutable_string_run (buf : Buf) :
    mutable_string buf = some (buf ++ mutable_string_lines) := by
  simp [mutable_string, mutable_string_lines, List.append_assoc]
  decide

theorem multiple_variables_simple_run (buf : Buf) :
    multiple_variables_simple buf =
      some (buf ++ multiple_variables_simple_lines) := by
  simp [multiple_variables_simple, multiple_variables_simple_lines,
    List.append_assoc]
  decide

theorem multiple_variables_complex_run (buf : Buf) :
    multiple_variables_complex buf =
      some (buf ++ multiple_variables_complex_lines) := by
  have h : mvc_s2.read = some (str "hello") := by decide
  simp [multiple_variables_complex, multiple_variables_complex_lines, h,
    List.append_assoc]
  decide

theorem using_clone_run (buf : Buf) :
    using_clone buf = some (buf ++ using_clone_lines) := by
  have h1 : uc_s1.read = some (str "hello") := by decide
  have h2 : uc_s2.read = some (str "hello") := by decide
  simp [using_clone, using_clone_lines, h1, h2, List.append_assoc]
  decide

theorem passing_function_params_run (buf : Buf) :
    passing_function_params buf =
      some (buf ++ passing_function_params_lines) := by
  have h1 : pfp_param.read = some (str "hello") := by decide
  have h2 : pfp_xparam.read = some 5 := by decide
  have h3 : pfp_x.read = some 5 := by decide
  simp [passing_function_params, passing_function_params_lines, h1, h2, h3,
    List.append_assoc]
  decide

theorem function_with_return_run (buf : Buf) :
    function_with_return buf = some (buf ++ function_with_return_lines) := by
  have h : fwr_s2.read = some (str "hello") := by decide
  simp [function_with_return, function_with_return_lines, h,
    List.append_assoc]
  decide

theorem using_reference_run (buf : Buf) :
    using_reference buf = some (buf ++ using_reference_lines) := by
  simp [using_reference, using_reference_lines, List.append_assoc]
  decide

theorem using_mutable_reference_run (buf : Buf) :
    using_mutable_reference buf =
      some (buf ++ using_mutable_reference_lines) := by
  simp [using_mutable_reference, using_mutable_reference_lines,
    List.append_assoc]
  decide

theorem rules_of_mutable_references_run (buf : Buf) :
    rules_of_mutable_references buf =
      some (buf ++ rules_of_mutable_references_lines) := by
  simp [rules_of_mutable_references, rules_of_mutable_references_lines,
    List.append_assoc]
  decide

theorem about_dangle_run (buf : Buf) :
    about_dangle buf = some (buf ++ about_dangle_lines) := by
  simp [about_dangle, about_dangle_lines, List.append_assoc]
  decide

theorem using_slice_run (buf : Buf) :
    using_slice buf = some (buf ++ using_slice_lines) := by
  have h1 : sliceStr (str "hello world") 0 5 = some (str "hello") := by
    decide
  have h2 : sliceStr (str "hello world") 6 (str "hello world").length =
      some (str "world") := by decide
  simp [using_slice, using_slice_lines, h1, h2, List.append_assoc]
  decide

theorem using_slice_function_run (buf : Buf) :
    using_slice_function buf = some (buf ++ using_slice_function_lines) := by
  simp [using_slice_function, using_slice_function_lines, List.append_assoc]
  decide

theorem general_string_slice_run (buf : Buf) :
    general_string_slice buf = some (buf ++ general_string_slice_lines) := by
  have h1 : sliceStr (str "hello world") 0 6 = some (str "hello ") := by
    decide
  have h2 : sliceStr (str "hello world") 0 (str "hello world").length =
      some (str "hello world") := by decide
  simp [general_string_slice, general_string_slice_lines, h1, h2,
    List.append_assoc]
  decide

theorem other_slices_run (buf : Buf) :
    other_slices buf = some (buf ++ other_slices_lines) := by
  have h : sliceList ([1, 2, 3, 4, 5] : List Int) 1 3 = some [2, 3] := by
    decide
  simp [other_slices, other_slices_lines, h, List.append_assoc]
  decide

theorem main_run (buf : Buf) : main buf = some (buf ++ main_lines) := by
  simp [main, main_lines, mutable_string_run, multiple_variables_simple_run,
    multiple_variables_complex_run, using_clone_run,
    passing_function_params_run, function_with_return_run,
    using_reference_run, using_mutable_reference_run,
    rules_of_mutable_references_run, about_dangle_run, using_slice_run,
    using_slice_function_run, general_string_slice_run, other_slices_run,
    List.append_assoc]

/-! ## The claims -/

/-- C1: for the text "hello world", extracting the region before the first
space (`first_word`) yields exactly "hello", and extracting the full region
(the slice over the whole range, `&s[..]`) yields exactly "hello world". -/
theorem C1_region_extraction :
    first_word (str "hello world") = str "hello" ∧
    sliceStr (str "hello world") 0 (str "hello world").length =
      some (str "hello world") ∧
    sliceStr (str "hello world") 0 5 = some (str "hello") := by
  decide

/-- C2: taking the sub-region spanning indices 1..3 of the fixed-size
sequence [1,2,3,4,5] yields exactly [2,3]; the `other_slices` scenario
passes its assertion and prints exactly those two elements. -/
theorem C2_other_slices :
    sliceList ([1, 2, 3, 4, 5] : List Int) 1 3 = some ([2, 3] : List Int) ∧
    other_slices [] = some [str "Other slices...", str "2", str "3"] := by
  decide

/-- C3: running the whole program twice produces byte-identical output, and
each individual scenario is idempotent: the lines a scenario appends to the
stdout buffer are a fixed list, independent of whatever state (buffer
contents) preceded it. -/
theorem C3_determinism_idempotence :
    (Option.bind (main []) main = some (main_lines ++ main_lines)) ∧
    (∀ buf : Buf, main buf = some (buf ++ main_lines)) ∧
    (∀ buf : Buf, mutable_string buf = some (buf ++ mutable_string_lines)) ∧
    (∀ buf : Buf, multiple_variables_simple buf =
      some (buf ++ multiple_variables_simple_lines)) ∧
    (∀ buf : Buf, multiple_variables_complex buf =
      some (buf ++ multiple_variables_complex_lines)) ∧
    (∀ buf : Buf, using_clone buf = some (buf ++ using_clone_lines)) ∧
    (∀ buf : Buf, passing_function_params buf =
      some (buf ++ passing_function_params_lines)) ∧
    (∀ buf : Buf, function_with_return buf =
      some (buf ++ function_with_return_lines)) ∧
    (∀ buf : Buf, using_reference buf =
      some (buf ++ using_reference_lines)) ∧
    (∀ buf : Buf, using_mutable_reference buf =
      some (buf ++ using_mutable_reference_lines)) ∧
    (∀ buf : Buf, rules_of_mutable_references buf =
      some (buf ++ rules_of_mutable_references_lines)) ∧
    (∀ buf : Buf, about_dangle buf = some (buf ++ about_dangle_lines)) ∧
    (∀ buf : Buf, using_slice buf = some (buf ++ using_slice_lines)) ∧
    (∀ buf : Buf, using_slice_function buf =
      some (buf ++ using_slice_function_lines)) ∧
    (∀ buf : Buf, general_string_slice buf =
      some (buf ++ general_string_slice_lines)) ∧
    (∀ buf : Buf, other_slices buf = some (buf ++ other_slices_lines)) := by
  refine ⟨?_, main_run, mutable_string_run, multiple_variables_simple_run,
    multiple_variables_complex_run, using_clone_run,
    passing_function_params_run, function_with_return_run,
    using_reference_run, using_mutable_reference_run,
    rules_of_mutable_references_run, about_dangle_run, using_slice_run,
    using_slice_function_run, general_string_slice_run, other_slices_run⟩
  simp [main_run]

/-- C4: `main` (the spec's `run_all`) executes the scenario list in its
declaration order, each scenario appending its output lines to the buffer
before the next scenario starts, and returns `some` (only after) the
concatenation of every scenario's output in that order. -/
theorem C4_run_all_order (buf : Buf) :
    main buf = some (buf ++
      (mutable_string_lines ++ multiple_variables_simple_lines ++
       multiple_variables_complex_lines ++ using_clone_lines ++
       passing_function_params_lines ++ function_with_return_lines ++
       using_reference_lines ++ using_mutable_reference_lines ++
       rules_of_mutable_references_lines ++ about_dangle_lines ++
       using_slice_lines ++ using_slice_function_lines ++
       general_string_slice_lines ++ other_slices_lines)) := by
  simpa [main_lines, List.append_assoc] using main_run buf

/-- Witness for C4, at the empty initial stdout buffer. -/
theorem C4_run_all_order_witness :
    main [] = some ([] ++
      (mutable_string_lines ++ multiple_variables_simple_lines ++
       multiple_variables_complex_lines ++ using_clone_lines ++
       passing_function_params_lines ++ function_with_return_lines ++
       using_reference_lines ++ using_mutable_reference_lines ++
       rules_of_mutable_references_lines ++ about_dangle_lines ++
       using_slice_lines ++ using_slice_function_lines ++
       general_string_slice_lines ++ other_slices_lines)) :=
  C4_run_all_order []

/-- C5: the only failure point of the model is an out-of-bounds slice,
which yields `none` (an uncaught panic aborting the run); and since all
inputs are the program's literal constants, every slice taken during the
run is in bounds, so the full run succeeds with the complete output (the
process exits 0). -/
theorem C5_error_model :
    (∀ (α : Type) (a : List α) (lo hi : Nat),
        sliceList a lo hi = none ↔ ¬(lo ≤ hi ∧ hi ≤ a.length)) ∧
    main [] = some main_lines := by
  constructor
  · intro α a lo hi
    simp [sliceList]
  · simpa using main_run []

/-- C6: in `multiple_variables_simple` (`let x = 5; let y = x;`), the copy
leaves the original binding valid and equal to the copy, and both bindings
print 5. -/
theorem C6_copy_simple_value :
    mvs_y = mvs_x ∧ mvs_x = 5 ∧ mvs_y = 5 ∧
    copyBinding (Own.valid mvs_x) = (Own.valid 5, Own.valid 5) ∧
    (∀ buf : Buf, multiple_variables_simple buf =
      some (buf ++ [str "Multiple variables simple...",
        str "x = 5, y = 5"])) := by
  refine ⟨rfl, rfl, rfl, rfl, fun buf => ?_⟩
  simpa [multiple_variables_simple_lines] using
    multiple_variables_simple_run buf

/-- C7: in `using_clone`, after `let s2 = s1.clone();` both the original
and the clone are independently valid and equal, and the scenario prints
both with the same content "hello". -/
theorem C7_clone_both_valid :
    uc_s1.read = some (str "hello") ∧
    uc_s2.read = some (str "hello") ∧
    uc_s2.read = uc_s1.read ∧
    (∀ buf : Buf, using_clone buf =
      some (buf ++ [str "Clone complex data...",
        str "s1 = hello, s2 = hello"])) := by
  refine ⟨by decide, by decide, by decide, fun buf => ?_⟩
  simpa [using_clone_lines] using using_clone_run buf

/-- C8: in `multiple_variables_complex`, `passing_function_params` and
`function_with_return`, transferring ownership of a `String` invalidates
the prior binding (it becomes `moved` and can no longer be read) and only
the new binding holds the value; in general, moving from any valid binding
does exactly this. -/
theorem C8_move_invalidates :
    (mvc_s1 = Own.moved ∧ mvc_s1.read = none ∧
      mvc_s2.read = some (str "hello")) ∧
    (pfp_s = Own.moved ∧ pfp_s.read = none ∧
      pfp_param.read = some (str "hello")) ∧
    (fwr_s = Own.moved ∧ fwr_s.read = none ∧
      fwr_s2.read = some (str "hello")) ∧
    (∀ v : Str, (moveBinding (Own.valid v)).1 = Own.moved ∧
      (moveBinding (Own.valid v)).1.read = none ∧
      (moveBinding (Own.valid v)).2.read = some v) := by
  refine ⟨by decide, by decide, by decide, fun v => ⟨rfl, rfl, rfl⟩⟩

/-- C9: for every input string, `first_word` returns the prefix ending just
before the first space, and the whole string when there is no space; in
particular `first_word "hello "` and `first_word "hello"` are both
"hello". -/
theorem C9_first_word_correct :
    (∀ s : Str, first_word s = firstWordSpec s) ∧
    first_word (str "hello ") = str "hello" ∧
    first_word (str "hello") = str "hello" :=
  ⟨first_word_eq_spec, by decide, by decide⟩

/-- C10: `takes_and_gives_back` is the identity on strings, so in
`function_with_return` the binding `s2` receives exactly the original value
"hello". -/
theorem C10_takes_and_gives_back_id :
    (∀ v : Str, takes_and_gives_back v = v) ∧
    fwr_s2 = Own.valid (str "hello") ∧
    (∀ buf : Buf, function_with_return buf =
      some (buf ++ [str "Function with return...",
        str "Getting back s and store in s2: hello"])) := by
  refine ⟨fun v => rfl, by decide, fun buf => ?_⟩
  simpa [function_with_return_lines] using function_with_return_run buf

end RustOwnership
